import Mathlib

/-!
# BLE WiFi-provisioning core: shallow embedding and verification

Shallow embedding of the provisioning core of the ESP32-S3 WiFi BLE
provisioning firmware: the fragmented-write reassembly protocol, the
bonding gate, the credential parser dispatch and the provisioning state
machine observer, translated from `src/main/ble_provisioning.c`,
`src/main/main.c` and `src/main/wifi_manager.c`.

Modelling conventions:
* bytes are `Nat` (values 0..255 on the wire); C strings are byte lists
  without interior NUL bytes;
* the module-level statics of `ble_provisioning.c` form the state record
  `Sys`; each BLE stack callback becomes a step on `Sys` that also emits a
  trace of observable effects (state-machine transitions, notifications,
  parser invocations, credentials handed to the WiFi connector, GATT
  responses, timer operations);
* the third-party cJSON library is abstracted as an oracle `Parse`
  (a function from payload bytes to an optional flat JSON object), so the
  control flow of `handle_wifi_credentials` is embedded exactly while the
  JSON decoding itself stays a parameter;
* external SDK calls (esp_ble_*, esp_wifi_*, esp_timer_*) are modelled by
  their observable effect on this module and are assumed to succeed;
  `malloc` in `handle_wifi_credentials` is assumed to succeed.
-/

namespace BleProv

/-- A byte on the wire (0..255). -/
abbrev Byte := Nat

/-- Provisioning state enum `provisioning_state_t`. The enum itself lives in `provisioning_state.h`,
which is not under `src/`; the constructors are the eight `PROV_STATE_*`
values used throughout `src/main/ble_provisioning.c`, `src/main/main.c` and
`src/main/wifi_manager.c`. -/
inductive ProvState
  | idle
  | bleConnected
  | credentialsReceived
  | wifiConnecting
  | wifiConnected
  | wifiFailed
  | provisioned
  | error
deriving DecidableEq, Repr

/-- Status code enum `provisioning_status_code_t`: the `STATUS_*` values used in the sources
(the enum declaration is in the missing `provisioning_state.h`). -/
inductive StatusCode
  | success
  | errorInvalidJson
  | errorMissingSsid
  | errorMissingPassword
  | errorWifiTimeout
  | errorWifiAuthFailed
  | errorWifiNoApFound
  | errorStorageFailed
deriving DecidableEq, Repr

/-- A cJSON object member value, as far as `handle_wifi_credentials`
inspects it: either a string item (with its `valuestring`) or any
non-string item. -/
inductive JVal
  | str (s : String)
  | nonStr
deriving DecidableEq, Repr

/-- A parsed flat JSON object: its member list. -/
def JObj := List (String × JVal)

/-- The cJSON_Parse oracle: `none` models a NULL return (any decode
failure, syntactic or bad UTF-8); `some o` models a successfully parsed
object with members `o`. -/
def Parse := List Byte → Option JObj

/-- Model of `cJSON_GetObjectItem(root, key)`: first member with the given key,
NULL (`none`) if absent. -/
def cJSON_GetObjectItem (root : JObj) (key : String) : Option JVal :=
  (List.find? (fun p => p.1 == key) root).map Prod.snd

/-- The combined `cJSON_GetObjectItem` + `cJSON_IsString` check used twice
in `handle_wifi_credentials`: yields the `valuestring` when the member is
present and is a string, `none` when it is absent (`NULL`) or not a string
(`!cJSON_IsString`). -/
def getStringField (root : JObj) (key : String) : Option String :=
  match cJSON_GetObjectItem root key with
  | some (JVal.str v) => some v
  | _ => none

/-- Which attribute a GATT write targets, per the handle comparisons in
`gatts_event_handler` (`attr_handle_table[IDX_STATE_CFG]`,
`attr_handle_table[IDX_STATUS_CFG]`, `attr_handle_table[IDX_WIFI_CRED_VAL]`,
or any other handle). -/
inductive WriteTarget
  | stateCfg
  | statusCfg
  | wifiCredVal
  | other
deriving DecidableEq, Repr

/-- The fields of `param->write` read by the handler. -/
structure WriteParam where
  target : WriteTarget
  is_prep : Bool
  need_rsp : Bool
  offset : Nat
  value : List Byte
deriving DecidableEq, Repr

/-- Observable effects emitted while processing one event. -/
inductive Eff
  /-- A call to `provisioning_state_set(st, code, msg)`. -/
  | stateSet (st : ProvState) (code : StatusCode) (msg : String)
  /-- A call to `ble_provisioning_send_state(b)`: the 1-byte State-channel push. -/
  | notifyState (b : Byte)
  /-- A call to `ble_provisioning_send_status(msg)`: the Status-channel text push. -/
  | notifyStatus (msg : String)
  /-- A call to `send_status_notification(st, code, msg)` in wifi_manager.c: the
  JSON status push built from state/status/message/timestamp. -/
  | sendStatusJson (st : ProvState) (code : StatusCode) (msg : String)
  /-- An invocation of `handle_wifi_credentials(payload, len)`. -/
  | credParse (payload : List Byte)
  /-- A call to `wifi_manager_connect(ssid, password)`: credentials
  reaching the WiFi Connector. -/
  | wifiConnect (ssid password : String)
  /-- A call to `esp_ble_gatts_send_response(..., ESP_GATT_OK, ...)`. -/
  | sendResponse
  /-- A call to `esp_ble_gap_start_advertising(&adv_params)`. -/
  | startAdvertising
  /-- A call to `esp_timer_stop(cred_timeout_timer)`. -/
  | timerStop
  /-- A call to `esp_timer_start_once(cred_timeout_timer, us)`. -/
  | timerStart (us : Nat)
deriving DecidableEq, Repr

/-- The module-level statics of `ble_provisioning.c` relevant to the
provisioning core, plus the current `ProvisioningState`.
`cred_write_buffer` holds the logical buffer content: the bytes at
indices `[0, cred_write_len)` of the 512-byte C array, so
`cred_write_buffer.length` is `cred_write_len`. -/
structure Sys where
  is_connected : Bool
  is_bonded : Bool
  conn_id_global : Nat
  cred_write_buffer : List Byte
  /-- Whether `cred_timeout_timer != NULL` (the timer has been created). -/
  timer_created : Bool
  /-- A one-shot timeout is pending. -/
  timer_armed : Bool
  /-- The state held by the provisioning state machine
  (`provisioning_state_get()`). -/
  prov_state : ProvState
deriving DecidableEq, Repr

/-- Startup state: statics zero/initial values of `ble_provisioning.c`
(`is_connected = false`, `is_bonded = false`, `conn_id_global = 0xFFFF`,
`cred_write_len = 0`, `cred_timeout_timer = NULL`); the state machine is
initialised to the idle state (`provisioning_state_init`, modelled from
the spec: the state machine is "initialized once at startup to an idle
state"). -/
def initSys : Sys :=
  { is_connected := false
  , is_bonded := false
  , conn_id_global := 0xFFFF
  , cred_write_buffer := []
  , timer_created := false
  , timer_armed := false
  , prov_state := .idle }

/-- The 1-byte app state computed by the `switch (state)` in
`state_change_handler` (`src/main/main.c:345`): Idle, BleConnected and
CredentialsReceived map to 0 (AWAITING), WifiConnecting to 1
(PROVISIONING), WifiConnected and Provisioned to 2 (SUCCESS), WifiFailed
and Error to 3 (FAILED); the C `default` arm (0) is unreachable for the
eight enum values. -/
def state_change_app_state : ProvState → Byte
  | .idle => 0
  | .bleConnected => 0
  | .credentialsReceived => 0
  | .wifiConnecting => 1
  | .wifiConnected => 2
  | .provisioned => 2
  | .wifiFailed => 3
  | .error => 3

/-- The byte table asserted by the specification for the State
characteristic payload, written from the words of the specification:
`0=AWAITING, 1=PROVISIONING, 2=SUCCESS, 3=FAILED`, mapped as
Idle/BleConnected/CredentialsReceived to 0, WifiConnecting to 1,
WifiConnected/Provisioned to 2, WifiFailed/Error to 3. -/
def spec_app_state (st : ProvState) : Byte :=
  if st = .idle ∨ st = .bleConnected ∨ st = .credentialsReceived then 0
  else if st = .wifiConnecting then 1
  else if st = .wifiConnected ∨ st = .provisioned then 2
  else 3

/-- Modelled from the spec: `provisioning_state.c` is not under `src/`.
Per the spec, `set(state, status, message)` is the single mutation entry
point and "every transition invokes all registered observers
synchronously". The sole registered observer is `state_change_handler`
(`src/main/main.c:333`), translated from source: when a BLE client is
connected it pushes the mapped 1-byte state and, since every call site
passes a non-NULL message, the status text. -/
def provisioning_state_set (s : Sys) (st : ProvState) (code : StatusCode)
    (msg : String) : Sys × List Eff :=
  ({ s with prov_state := st },
   .stateSet st code msg ::
     (if s.is_connected then
        [.notifyState (state_change_app_state st), .notifyStatus msg]
      else []))

/-- Error kind of `wifi_manager_connect`. -/
inductive EspErr
  | invalidArg
deriving DecidableEq, Repr

/-- What a successful `wifi_manager_connect` call stores
(`src/main/wifi_manager.c:230`): the `pending_ssid` / `pending_password`
statics (later persisted to NVS on IP acquisition) and the
`wifi_config.sta.ssid` / `wifi_config.sta.password` fields handed to
`esp_wifi_set_config` for the connection attempt. -/
structure WifiConnectCall where
  pending_ssid : List Byte
  pending_password : List Byte
  sta_ssid : List Byte
  sta_password : List Byte
deriving DecidableEq, Repr

/-- Function `wifi_manager_connect` from `src/main/wifi_manager.c:230`, byte level.
NULL ssid or password is rejected with `ESP_ERR_INVALID_ARG`; otherwise
`strncpy` into zeroed destinations stores the first `min(|src|, n)` bytes
(`List.take n`), with `n = sizeof(dst) - 1` at each call site:
`pending_ssid` is `char[33]` and `pending_password` is `char[64]`
(`wifi_manager.c:34`), so 32 and 63; `wifi_config.sta.ssid` is
`uint8_t[32]` and `wifi_config.sta.password` is `uint8_t[64]` (ESP-IDF
SDK header `esp_wifi_types.h`, not part of this repository), so 31
and 63. The external esp_wifi calls are modelled as succeeding and the
function returns `ESP_OK`. -/
def wifi_manager_connect (ssid password : Option (List Byte)) :
    Except EspErr WifiConnectCall :=
  match ssid, password with
  | some sd, some pw =>
      .ok { pending_ssid := sd.take 32
          , pending_password := pw.take 63
          , sta_ssid := sd.take 31
          , sta_password := pw.take 63 }
  | _, _ => .error .invalidArg

/-- The effect of `wifi_manager_connect(ssid, password)` inside the
provisioning flow (non-NULL arguments, as passed from
`handle_wifi_credentials`): credentials are handed to the WiFi connector,
the state machine is set to `PROV_STATE_WIFI_CONNECTING`, a JSON status
notification is pushed when connected, and `ESP_OK` is returned
(`src/main/wifi_manager.c:230`). -/
def wifi_manager_connect_eff (s : Sys) (ssid password : String) :
    Sys × List Eff :=
  let r := provisioning_state_set s .wifiConnecting .success
      "Initiating WiFi connection"
  (r.1,
   .wifiConnect ssid password :: r.2 ++
     (if s.is_connected then
        [.sendStatusJson .wifiConnecting .success "Initiating WiFi connection"]
      else []))

/-- Function `handle_wifi_credentials` from `src/main/ble_provisioning.c:106`,
with cJSON abstracted as the oracle `parse`. The leading `.credParse`
effect records the invocation itself. `malloc` is assumed to succeed.
On success the modelled `wifi_manager_connect` returns `ESP_OK`, so the
`ret != ESP_OK` error branch is not taken. -/
def handle_wifi_credentials (parse : Parse) (s : Sys) (data : List Byte) :
    Sys × List Eff :=
  let r :=
    match parse data with
    | none =>
        provisioning_state_set s .error .errorInvalidJson
          "Invalid JSON format"
    | some root =>
        match getStringField root "ssid" with
        | none =>
            provisioning_state_set s .error .errorMissingSsid
              "SSID field missing or invalid"
        | some ssid =>
            match getStringField root "password" with
            | none =>
                provisioning_state_set s .error .errorMissingPassword
                  "Password field missing or invalid"
            | some password =>
                let r2 := provisioning_state_set s
                    .credentialsReceived .success
                    "Credentials received successfully"
                let r3 := wifi_manager_connect_eff r2.1 ssid password
                (r3.1, r2.2 ++ r3.2)
  (r.1, .credParse data :: r.2)

/-- Function `cred_timeout_callback` from `src/main/ble_provisioning.c:170`:
if any bytes are buffered, process them (even if incomplete) and reset
the buffer; an empty buffer is left untouched and nothing is
dispatched. -/
def cred_timeout_callback (parse : Parse) (s : Sys) : Sys × List Eff :=
  if 0 < s.cred_write_buffer.length then
    let r := handle_wifi_credentials parse s s.cred_write_buffer
    ({ r.1 with cred_write_buffer := [] }, r.2)
  else (s, [])

/-- The CCCD value decode `param->write.value[1] << 8 | param->write.value[0]`
(out-of-range reads modelled as 0). -/
def descr_value (v : List Byte) : Nat :=
  Nat.lor (Nat.shiftLeft (v.getD 1 0) 8) (v.getD 0 0)

/-- Model of `memcpy(cred_write_buffer + off, v, v.length)` on the logical buffer
content, for the prepared-write branch: the result has `v` at indices
`[off, off + v.length)`, the old bytes elsewhere, and logical length
`max(buf.length, off + v.length)` (the `cred_write_len` high-water
update). Bytes in a gap beyond the current length are modelled as 0;
this branch is unreachable (see `gatts_write_evt`), so the gap content is
never observed. -/
def writeAt (buf : List Byte) (off : Nat) (v : List Byte) : List Byte :=
  buf.take off ++ List.replicate (off - buf.length) 0 ++ v ++
    buf.drop (off + v.length)

/-- Timeout duration `CRED_WRITE_TIMEOUT_MS * 1000` in microseconds
(`src/main/ble_provisioning.c:94,452`). -/
def cred_timeout_us : Nat := 2000 * 1000

/-- Capacity `MAX_CRED_BUFFER_SIZE` (`src/main/ble_provisioning.c:93`). -/
def max_cred_buffer_size : Nat := 512

/-- The `ESP_GATTS_WRITE_EVT` case of `gatts_event_handler`
(`src/main/ble_provisioning.c:349`). The whole case body is guarded by
`if (!param->write.is_prep)`, so a prepared write falls through with no
effect at all; the inner `if (param->write.is_prep)` prepared-write
branch (line 385) is consequently unreachable and is embedded here only
for fidelity to the source. -/
def gatts_write_evt (parse : Parse) (s : Sys) (w : WriteParam) :
    Sys × List Eff :=
  if w.is_prep then (s, [])
  else
    match w.target with
    | .stateCfg => (s, [])
    | .statusCfg =>
        if descr_value w.value = 0x0001 then
          -- "Send initial status notification - use IDLE state"
          provisioning_state_set s .idle .success
            "Ready to receive WiFi credentials"
        else (s, [])
    | .wifiCredVal =>
        if w.is_prep then
          -- unreachable: the outer guard already required `!is_prep`
          let s1 :=
            if s.is_bonded ∧ w.offset + w.value.length ≤ max_cred_buffer_size
            then { s with cred_write_buffer :=
                            writeAt s.cred_write_buffer w.offset w.value }
            else s
          (s1, if w.need_rsp then [.sendResponse] else [])
        else
          let ack : List Eff := if w.need_rsp then [.sendResponse] else []
          if s.is_bonded then
            if s.cred_write_buffer.length + w.value.length ≤
                max_cred_buffer_size then
              let buf := s.cred_write_buffer ++ w.value
              if 0 < buf.length ∧ buf.getLastD 0 = 125 then
                -- complete JSON detected (trailing 0x7d); stop the timer
                -- if it exists, dispatch, reset the buffer
                let stopEffs : List Eff :=
                  if s.timer_created then [.timerStop] else []
                let r := handle_wifi_credentials parse
                    { s with cred_write_buffer := buf
                           , timer_armed :=
                               if s.timer_created then false
                               else s.timer_armed } buf
                ({ r.1 with cred_write_buffer := [] },
                 ack ++ stopEffs ++ r.2)
              else
                -- waiting for more fragments: create the timer if needed,
                -- stop it if already running, arm the one-shot
                ({ s with cred_write_buffer := buf
                        , timer_created := true
                        , timer_armed := true },
                 ack ++ [.timerStop, .timerStart cred_timeout_us])
            else
              let r := provisioning_state_set
                  { s with cred_write_buffer := [] }
                  .error .errorInvalidJson "Credentials too long"
              (r.1, ack ++ r.2)
          else
            let r := provisioning_state_set s
                .error .errorInvalidJson
                "Device must be bonded before sending credentials"
            (r.1, ack ++ r.2)
    | .other => (s, [])

/-- One event delivered to the serialized BLE processing context:
the `gatts_event_handler` cases relevant to the provisioning core, the
`ESP_GAP_BLE_AUTH_CMPL_EVT` case of `gap_event_handler`, and the expiry
of the credential timeout timer. -/
inductive BleEvent
  | connect (connId : Nat)
  | disconnect
  | write (w : WriteParam)
  /-- Event `ESP_GATTS_EXEC_WRITE_EVT`; `isExec = true` for
  `ESP_GATT_PREP_WRITE_EXEC`, `false` for `ESP_GATT_PREP_WRITE_CANCEL`. -/
  | execWrite (isExec : Bool)
  | authCmpl (success : Bool)
  | credTimeout
deriving DecidableEq, Repr

/-- One step of the serialized event dispatch, translated from
`gatts_event_handler` (`src/main/ble_provisioning.c:223`),
the `ESP_GAP_BLE_AUTH_CMPL_EVT` case of `gap_event_handler`
(`src/main/ble_provisioning.c:207`) and the timer callback. Connection
parameter updates and `esp_ble_set_encryption` on connect are external
calls with no effect on the state of this module and are not recorded. -/
def step (parse : Parse) (s : Sys) (e : BleEvent) : Sys × List Eff :=
  match e with
  | .connect cid =>
      let s1 := { s with conn_id_global := cid, is_connected := true }
      provisioning_state_set s1 .bleConnected .success "BLE client connected"
  | .disconnect =>
      let s1 := { s with is_connected := false
                       , is_bonded := false
                       , conn_id_global := 0xFFFF }
      if s1.prov_state ≠ .provisioned then
        let r := provisioning_state_set s1 .idle .success
            "BLE disconnected, restarting advertising"
        (r.1, .startAdvertising :: r.2)
      else (s1, [])
  | .write w => gatts_write_evt parse s w
  | .execWrite isExec =>
      if isExec ∧ 0 < s.cred_write_buffer.length then
        let r := handle_wifi_credentials parse s s.cred_write_buffer
        ({ r.1 with cred_write_buffer := [] }, r.2 ++ [.sendResponse])
      else if ¬ isExec then
        ({ s with cred_write_buffer := [] }, [.sendResponse])
      else (s, [.sendResponse])
  | .authCmpl ok => ({ s with is_bonded := ok }, [])
  | .credTimeout =>
      -- the one-shot fires: it is no longer pending, then the callback runs
      cred_timeout_callback parse { s with timer_armed := false }

/-- Process a list of events in delivery order, concatenating effects. -/
def run (parse : Parse) (s : Sys) (es : List BleEvent) : Sys × List Eff :=
  match es with
  | [] => (s, [])
  | e :: rest =>
      let r1 := step parse s e
      let r2 := run parse r1.1 rest
      (r2.1, r1.2 ++ r2.2)

/-- The payloads on which `handle_wifi_credentials` was invoked. -/
def parseCalls (effs : List Eff) : List (List Byte) :=
  effs.filterMap fun e =>
    match e with
    | .credParse p => some p
    | _ => none

/-- The (ssid, password) pairs handed to `wifi_manager_connect`. -/
def wifiConnects (effs : List Eff) : List (String × String) :=
  effs.filterMap fun e =>
    match e with
    | .wifiConnect a b => some (a, b)
    | _ => none

/-- The `provisioning_state_set` transitions recorded in a trace. -/
def stateSets (effs : List Eff) : List (ProvState × StatusCode × String) :=
  effs.filterMap fun e =>
    match e with
    | .stateSet st c m => some (st, c, m)
    | _ => none

/-- The bytes pushed on the State channel. -/
def stateNotifies (effs : List Eff) : List Byte :=
  effs.filterMap fun e =>
    match e with
    | .notifyState b => some b
    | _ => none

/-- The (ssid, password) pair obtained by parsing a payload directly:
`none` when decoding fails or a required string field is missing. -/
def credsOf (parse : Parse) (data : List Byte) : List (String × String) :=
  match parse data with
  | none => []
  | some root =>
      match getStringField root "ssid", getStringField root "password" with
      | some a, some b => [(a, b)]
      | _, _ => []

/-! ## Shared concrete instances for witnesses and counterexamples -/

/-- A parse oracle on which every payload fails to decode. -/
def pnone : Parse := fun _ => none

/-- A parse oracle on which every payload decodes to a flat object with
string fields ssid = "HomeNet" and password = "secret123". -/
def pgood : Parse := fun _ =>
  some [("ssid", JVal.str "HomeNet"), ("password", JVal.str "secret123")]

/-- A connected, bonded peer with an empty reassembly buffer. -/
def bondedSys : Sys :=
  { initSys with is_connected := true, is_bonded := true }

/-! ## Helper lemmas -/

/-- Every invocation trace of `handle_wifi_credentials` records exactly
one parser call, on the given payload. -/
theorem parseCalls_handle (parse : Parse) (s : Sys) (d : List Byte) :
    parseCalls (handle_wifi_credentials parse s d).2 = [d] := by
  unfold handle_wifi_credentials
  rcases hp : parse d with _ | root <;>
    simp only [hp] <;>
    [skip;
     rcases hs : getStringField root "ssid" with _ | ssid <;>
       simp only [hs] <;>
       [skip;
        rcases hw : getStringField root "password" with _ | pw <;>
          simp only [hw]]] <;>
    cases hc : s.is_connected <;>
      simp [provisioning_state_set, wifi_manager_connect_eff, parseCalls, hc]

/-- The credentials handed to the WiFi connector by one invocation of
`handle_wifi_credentials` are exactly those obtained by parsing the
payload directly. -/
theorem wifiConnects_handle (parse : Parse) (s : Sys) (d : List Byte) :
    wifiConnects (handle_wifi_credentials parse s d).2 = credsOf parse d := by
  unfold handle_wifi_credentials credsOf
  rcases hp : parse d with _ | root <;>
    simp only [hp] <;>
    [skip;
     rcases hs : getStringField root "ssid" with _ | ssid <;>
       simp only [hs] <;>
       [skip;
        rcases hw : getStringField root "password" with _ | pw <;>
          simp only [hw]]] <;>
    cases hc : s.is_connected <;>
      simp [provisioning_state_set, wifi_manager_connect_eff, wifiConnects, hc]

/-! ## C1 -/

/-- C1: a non-prepared write to the Credentials characteristic while the
bonded flag is false is rejected before buffering any byte: the
reassembly buffer is unchanged, `handle_wifi_credentials` is never
invoked, no credentials reach the WiFi connector, and the state machine
transitions to the Error state with the status message
"Device must be bonded before sending credentials". -/
theorem c1_unbonded_credential_write_rejected (parse : Parse) (s : Sys)
    (w : WriteParam) (hb : s.is_bonded = false)
    (ht : w.target = .wifiCredVal) (hp : w.is_prep = false) :
    (gatts_write_evt parse s w).1.cred_write_buffer = s.cred_write_buffer ∧
    parseCalls (gatts_write_evt parse s w).2 = [] ∧
    wifiConnects (gatts_write_evt parse s w).2 = [] ∧
    stateSets (gatts_write_evt parse s w).2 =
      [(.error, .errorInvalidJson,
        "Device must be bonded before sending credentials")] ∧
    (gatts_write_evt parse s w).1.prov_state = .error := by
  obtain ⟨t, prep, rsp, off, v⟩ := w
  cases ht; cases hp
  cases rsp <;> cases hc : s.is_connected <;>
    simp [gatts_write_evt, provisioning_state_set, hb, hc,
      parseCalls, wifiConnects, stateSets]

/-- Witness for C1 at a concrete unbonded state and payload. -/
theorem c1_witness :
    (gatts_write_evt pnone initSys
        ⟨.wifiCredVal, false, false, 0, [123]⟩).1.cred_write_buffer =
      initSys.cred_write_buffer ∧
    parseCalls (gatts_write_evt pnone initSys
        ⟨.wifiCredVal, false, false, 0, [123]⟩).2 = [] ∧
    wifiConnects (gatts_write_evt pnone initSys
        ⟨.wifiCredVal, false, false, 0, [123]⟩).2 = [] ∧
    stateSets (gatts_write_evt pnone initSys
        ⟨.wifiCredVal, false, false, 0, [123]⟩).2 =
      [(.error, .errorInvalidJson,
        "Device must be bonded before sending credentials")] ∧
    (gatts_write_evt pnone initSys
        ⟨.wifiCredVal, false, false, 0, [123]⟩).1.prov_state = .error :=
  c1_unbonded_credential_write_rejected pnone initSys
    ⟨.wifiCredVal, false, false, 0, [123]⟩ rfl rfl rfl

/-! ## C3 -/

/-- C3: a prepared (long-write) fragment to the Credentials
characteristic is dropped entirely, contrary to the specified behaviour:
even bonded, within capacity and with a response requested, the state is
unchanged (nothing is buffered at the offset) and no effect at all — in
particular no acknowledgement — is produced, because the whole
`ESP_GATTS_WRITE_EVT` body is guarded by `!param->write.is_prep` while
the prepared-write handling sits unreachably inside it. -/
theorem c3_prepared_write_dropped :
    gatts_write_evt pnone bondedSys ⟨.wifiCredVal, true, true, 0, [123]⟩ =
      (bondedSys, []) := rfl

/-! ## C5 -/

/-- C5 counterexample: after a bonded fragment is buffered, a disconnect
leaves the reassembly buffer untouched — its length is 1, not 0 as the
claim requires. -/
theorem c5_counterexample :
    (run pnone initSys [BleEvent.connect 0, .authCmpl true,
        .write ⟨.wifiCredVal, false, false, 0, [123]⟩,
        .disconnect]).1.cred_write_buffer.length = 1 := by decide

/-- C5 amended: on every disconnect event the connection is cleared, the
bonded flag is reset, and, if the provisioning state is not Provisioned,
advertising resumes and the state machine returns to Idle; the
reassembly buffer, however, is NOT reset — it is left exactly as it
was. -/
theorem c5_amended_disconnect (parse : Parse) (s : Sys) :
    (step parse s .disconnect).1.is_connected = false ∧
    (step parse s .disconnect).1.is_bonded = false ∧
    (step parse s .disconnect).1.conn_id_global = 0xFFFF ∧
    (step parse s .disconnect).1.cred_write_buffer = s.cred_write_buffer ∧
    (if s.prov_state = .provisioned then
        (step parse s .disconnect).1.prov_state = s.prov_state ∧
        Eff.startAdvertising ∉ (step parse s .disconnect).2
      else
        (step parse s .disconnect).1.prov_state = .idle ∧
        Eff.startAdvertising ∈ (step parse s .disconnect).2) := by
  by_cases h : s.prov_state = .provisioned <;>
    cases hc : s.is_connected <;>
      simp [step, provisioning_state_set, h, hc]

/-! ## C7 -/

/-- C7 counterexample: with the machine in WifiConnecting and a peer
connected, enabling notifications on the Status CCCD pushes the byte 0
(the Idle mapping) on the State channel — not the byte for the state the
machine was actually in, since `state_change_app_state .wifiConnecting`
is 1: the handler force-sets the state to Idle instead of emitting a
snapshot of the current state. -/
theorem c7_counterexample :
    (run pgood initSys [BleEvent.connect 0, .authCmpl true,
        .write ⟨.wifiCredVal, false, false, 0, [123, 125]⟩]).1.prov_state =
      .wifiConnecting ∧
    stateNotifies (step pgood
        (run pgood initSys [BleEvent.connect 0, .authCmpl true,
          .write ⟨.wifiCredVal, false, false, 0, [123, 125]⟩]).1
        (.write ⟨.statusCfg, false, false, 0, [1, 0]⟩)).2 = [0] ∧
    state_change_app_state .wifiConnecting ≠ 0 :=
  ⟨by decide, by decide, by decide⟩

/-- C7 amended: a write enabling notifications on the Status CCCD (value
0x0001) always sets the state machine to Idle with the message
"Ready to receive WiFi credentials", and, while a peer is connected,
emits the Idle byte — a fixed Idle snapshot, not the state the machine
was in at the time of the write. -/
theorem c7_amended_cccd_enable (parse : Parse) (s : Sys) (w : WriteParam)
    (ht : w.target = .statusCfg) (hp : w.is_prep = false)
    (hv : descr_value w.value = 1) :
    (gatts_write_evt parse s w).1.prov_state = .idle ∧
    stateSets (gatts_write_evt parse s w).2 =
      [(.idle, .success, "Ready to receive WiFi credentials")] ∧
    (s.is_connected = true →
      stateNotifies (gatts_write_evt parse s w).2 =
        [state_change_app_state .idle]) := by
  obtain ⟨t, prep, rsp, off, v⟩ := w
  cases ht; cases hp
  cases hc : s.is_connected <;>
    simp [gatts_write_evt, provisioning_state_set, hc, hv,
      stateSets, stateNotifies]

/-- Witness for C7 amended at a concrete connected state. -/
theorem c7_amended_witness :
    (gatts_write_evt pnone bondedSys
        ⟨.statusCfg, false, false, 0, [1, 0]⟩).1.prov_state = .idle ∧
    stateSets (gatts_write_evt pnone bondedSys
        ⟨.statusCfg, false, false, 0, [1, 0]⟩).2 =
      [(.idle, .success, "Ready to receive WiFi credentials")] ∧
    (bondedSys.is_connected = true →
      stateNotifies (gatts_write_evt pnone bondedSys
          ⟨.statusCfg, false, false, 0, [1, 0]⟩).2 =
        [state_change_app_state .idle]) :=
  c7_amended_cccd_enable pnone bondedSys
    ⟨.statusCfg, false, false, 0, [1, 0]⟩ rfl rfl (by decide)

/-! ## C9 -/

/-- C9: for every state-machine transition performed while a peer is
connected, the 1-byte value pushed on the State channel is exactly the
mapping asserted by the specification: Idle, BleConnected and
CredentialsReceived to 0 (AWAITING), WifiConnecting to 1 (PROVISIONING),
WifiConnected and Provisioned to 2 (SUCCESS), WifiFailed and Error to 3
(FAILED). -/
theorem c9_state_byte_mapping (s : Sys) (st : ProvState) (c : StatusCode)
    (m : String) (hc : s.is_connected = true) :
    stateNotifies (provisioning_state_set s st c m).2 =
      [spec_app_state st] := by
  cases st <;>
    simp [provisioning_state_set, stateNotifies, hc, spec_app_state,
      state_change_app_state]

/-- Witness for C9 at a concrete connected transition. -/
theorem c9_witness :
    stateNotifies (provisioning_state_set bondedSys .wifiConnecting
        .success "x").2 = [spec_app_state .wifiConnecting] :=
  c9_state_byte_mapping bondedSys .wifiConnecting .success "x" rfl

/-! ## C10 -/

/-- C10 counterexample: a 32-byte ssid is accepted, but the ssid handed
to the WiFi driver for the connection attempt (`wifi_config.sta.ssid`)
keeps only its first 31 bytes — not 32 as the claim states — because the
`strncpy` uses `sizeof(wifi_config.sta.ssid) - 1 = 31`. -/
theorem c10_counterexample :
    wifi_manager_connect (some (List.replicate 32 97)) (some [120]) =
      .ok ⟨List.replicate 32 97, [120], List.replicate 31 97, [120]⟩ ∧
    (List.replicate 31 97 : List Byte) ≠ List.replicate 32 97 :=
  ⟨rfl, by decide⟩

/-- C10 amended: any non-NULL ssid and password are accepted (the call
returns OK) however long they are; the values kept for later persistence
are truncated to 32 and 63 bytes, the values used for the connection
attempt to 31 and 63 bytes, with no error reported; only a NULL ssid or
password is rejected, with `ESP_ERR_INVALID_ARG`. -/
theorem c10_amended_truncation (sd pw : List Byte) :
    wifi_manager_connect (some sd) (some pw) =
      .ok ⟨sd.take 32, pw.take 63, sd.take 31, pw.take 63⟩ ∧
    (∀ x, wifi_manager_connect none x = .error .invalidArg) ∧
    (∀ x, wifi_manager_connect x none = .error .invalidArg) := by
  refine ⟨rfl, fun x => ?_, fun x => ?_⟩ <;> cases x <;> rfl

/-! ## C8 -/

/-- C8: for every complete payload dispatched to
`handle_wifi_credentials`: a decode failure yields an Error transition
with the invalid-JSON status; a present-and-string decode with the ssid
field absent or not a string yields the missing-ssid status; with ssid
present but the password field absent or not a string, the
missing-password status; and with both fields present as strings the
(ssid, password) pair is forwarded exactly once to the WiFi
connector. -/
theorem c8_parser_dispatch (parse : Parse) (s : Sys) (data : List Byte) :
    (parse data = none →
      stateSets (handle_wifi_credentials parse s data).2 =
        [(.error, .errorInvalidJson, "Invalid JSON format")] ∧
      wifiConnects (handle_wifi_credentials parse s data).2 = []) ∧
    (∀ root, parse data = some root →
      getStringField root "ssid" = none →
      stateSets (handle_wifi_credentials parse s data).2 =
        [(.error, .errorMissingSsid, "SSID field missing or invalid")] ∧
      wifiConnects (handle_wifi_credentials parse s data).2 = []) ∧
    (∀ root ssid, parse data = some root →
      getStringField root "ssid" = some ssid →
      getStringField root "password" = none →
      stateSets (handle_wifi_credentials parse s data).2 =
        [(.error, .errorMissingPassword,
          "Password field missing or invalid")] ∧
      wifiConnects (handle_wifi_credentials parse s data).2 = []) ∧
    (∀ root ssid password, parse data = some root →
      getStringField root "ssid" = some ssid →
      getStringField root "password" = some password →
      wifiConnects (handle_wifi_credentials parse s data).2 =
        [(ssid, password)] ∧
      stateSets (handle_wifi_credentials parse s data).2 =
        [(.credentialsReceived, .success,
          "Credentials received successfully"),
         (.wifiConnecting, .success, "Initiating WiFi connection")]) := by
  refine ⟨fun hp => ?_, fun root hp hs => ?_,
    fun root ssid hp hs hw => ?_, fun root ssid password hp hs hw => ?_⟩
  · cases hc : s.is_connected <;>
      simp [handle_wifi_credentials, provisioning_state_set,
        stateSets, wifiConnects, hp, hc]
  · cases hc : s.is_connected <;>
      simp [handle_wifi_credentials, provisioning_state_set,
        stateSets, wifiConnects, hp, hs, hc]
  · cases hc : s.is_connected <;>
      simp [handle_wifi_credentials, provisioning_state_set,
        stateSets, wifiConnects, hp, hs, hw, hc]
  · cases hc : s.is_connected <;>
      simp [handle_wifi_credentials, provisioning_state_set,
        wifi_manager_connect_eff, stateSets, wifiConnects, hp, hs, hw, hc]

/-- Witness for C8 at a concrete payload whose decode yields both string
fields. -/
theorem c8_witness :
    wifiConnects (handle_wifi_credentials pgood initSys [123, 125]).2 =
      [("HomeNet", "secret123")] ∧
    stateSets (handle_wifi_credentials pgood initSys [123, 125]).2 =
      [(.credentialsReceived, .success,
        "Credentials received successfully"),
       (.wifiConnecting, .success, "Initiating WiFi connection")] :=
  (c8_parser_dispatch pgood initSys [123, 125]).2.2.2
    [("ssid", JVal.str "HomeNet"), ("password", JVal.str "secret123")]
    "HomeNet" "secret123" rfl (by decide) (by decide)

/-! ## C4 -/

/-- C4 counterexample: a bonded zero-length write-without-response
fragment arms the timeout timer with an empty buffer; when the timeout
fires, the callback dispatches nothing (the parser is invoked zero
times, not exactly once as the claim states for an empty buffer). -/
theorem c4_counterexample :
    (run pnone initSys [BleEvent.connect 0, .authCmpl true,
        .write ⟨.wifiCredVal, false, false, 0, []⟩]).1.timer_armed = true ∧
    parseCalls (run pnone initSys [BleEvent.connect 0, .authCmpl true,
        .write ⟨.wifiCredVal, false, false, 0, []⟩, .credTimeout]).2 = [] :=
  ⟨by decide, by decide⟩

/-- C4 amended: a bonded, within-capacity write-without-response
fragment that does not complete the payload (the buffer does not end in
the byte 0x7d) leaves the timer armed, stopping any previous one-shot
and starting a new 2000 ms one (so at most one timeout is pending); on
expiry, the buffered bytes are dispatched to the parser exactly once
when non-empty — an empty buffer dispatches nothing — and the buffer
length is 0 afterward. -/
theorem c4_amended_timeout (parse : Parse) (s : Sys) (w : WriteParam)
    (hb : s.is_bonded = true) (ht : w.target = .wifiCredVal)
    (hp : w.is_prep = false)
    (hfit : s.cred_write_buffer.length + w.value.length ≤
      max_cred_buffer_size)
    (hnc : (s.cred_write_buffer ++ w.value).getLastD 0 ≠ 125) :
    (gatts_write_evt parse s w).1.timer_armed = true ∧
    (gatts_write_evt parse s w).2 =
      (if w.need_rsp then [Eff.sendResponse] else []) ++
        [.timerStop, .timerStart cred_timeout_us] ∧
    parseCalls (step parse s .credTimeout).2 =
      (if s.cred_write_buffer = [] then [] else [s.cred_write_buffer]) ∧
    (step parse s .credTimeout).1.cred_write_buffer = [] := by
  obtain ⟨t, prep, rsp, off, v⟩ := w
  cases ht; cases hp
  have hnc2 : (v.getLast?.or s.cred_write_buffer.getLast?).getD 0 ≠ 125 := by
    simpa [List.getLastD_eq_getLast?] using hnc
  refine ⟨?_, ?_, ?_, ?_⟩
  · simp [gatts_write_evt, hb, hfit, hnc2]
  · simp [gatts_write_evt, hb, hfit, hnc2]
  · by_cases hbuf : s.cred_write_buffer = []
    · simp [step, cred_timeout_callback, hbuf, parseCalls]
    · have h0 : 0 < s.cred_write_buffer.length :=
        List.length_pos.mpr hbuf
      simp [step, cred_timeout_callback, h0, hbuf, parseCalls_handle]
  · by_cases hbuf : s.cred_write_buffer = []
    · simp [step, cred_timeout_callback, hbuf]
    · have h0 : 0 < s.cred_write_buffer.length :=
        List.length_pos.mpr hbuf
      simp [step, cred_timeout_callback, h0]

/-- A bonded state with one buffered fragment and a pending timeout. -/
def armedSys : Sys :=
  { bondedSys with cred_write_buffer := [123]
                 , timer_created := true
                 , timer_armed := true }

/-- Witness for C4 amended at a concrete non-completing fragment. -/
theorem c4_amended_witness :
    (gatts_write_evt pnone armedSys
        ⟨.wifiCredVal, false, false, 0, [97]⟩).1.timer_armed = true ∧
    (gatts_write_evt pnone armedSys
        ⟨.wifiCredVal, false, false, 0, [97]⟩).2 =
      (if (false : Bool) then [Eff.sendResponse] else []) ++
        [.timerStop, .timerStart cred_timeout_us] ∧
    parseCalls (step pnone armedSys .credTimeout).2 =
      (if armedSys.cred_write_buffer = [] then []
       else [armedSys.cred_write_buffer]) ∧
    (step pnone armedSys .credTimeout).1.cred_write_buffer = [] :=
  c4_amended_timeout pnone armedSys ⟨.wifiCredVal, false, false, 0, [97]⟩
    rfl rfl rfl (by decide) (by decide)

/-! ## C6 -/

/-- One invocation of `handle_wifi_credentials` never changes the
reassembly buffer itself (callers reset it separately). -/
theorem handle_buffer_eq (parse : Parse) (s : Sys) (d : List Byte) :
    (handle_wifi_credentials parse s d).1.cred_write_buffer =
      s.cred_write_buffer := by
  unfold handle_wifi_credentials
  rcases hp : parse d with _ | root <;>
    simp only [hp] <;>
    [skip;
     rcases hs : getStringField root "ssid" with _ | ssid <;>
       simp only [hs] <;>
       [skip;
        rcases hw : getStringField root "password" with _ | pw <;>
          simp only [hw]]] <;>
    simp [provisioning_state_set, wifi_manager_connect_eff]

/-- Every single event step keeps the reassembly buffer within the
512-byte capacity. -/
theorem step_buffer_le (parse : Parse) (s : Sys) (e : BleEvent)
    (h : s.cred_write_buffer.length ≤ max_cred_buffer_size) :
    (step parse s e).1.cred_write_buffer.length ≤ max_cred_buffer_size := by
  cases e with
  | connect cid => simpa [step, provisioning_state_set] using h
  | disconnect =>
      by_cases hp : s.prov_state = .provisioned <;>
        simpa [step, provisioning_state_set, hp] using h
  | write w =>
      obtain ⟨t, prep, rsp, off, v⟩ := w
      cases prep
      · cases t with
        | stateCfg => simpa [step, gatts_write_evt] using h
        | statusCfg =>
            by_cases hv : descr_value v = 0x0001 <;>
              simpa [step, gatts_write_evt, provisioning_state_set, hv]
                using h
        | wifiCredVal =>
            by_cases hb : s.is_bonded
            · by_cases hfit : s.cred_write_buffer.length + v.length ≤
                  max_cred_buffer_size
              · by_cases hcomp : (0 < s.cred_write_buffer.length ∨
                    0 < v.length) ∧
                    (v.getLast?.or s.cred_write_buffer.getLast?).getD 0 =
                      125
                · simp [step, gatts_write_evt, hb, hfit, hcomp]
                · simp only [step, gatts_write_evt, hb, hfit]
                  simpa [hcomp] using hfit
              · simp [step, gatts_write_evt, provisioning_state_set, hb,
                  hfit]
            · simp only [Bool.not_eq_true] at hb
              simpa [step, gatts_write_evt, provisioning_state_set, hb]
                using h
        | other => simpa [step, gatts_write_evt] using h
      · simpa [step, gatts_write_evt] using h
  | execWrite isExec =>
      cases isExec with
      | false => simp [step]
      | true =>
          by_cases h0 : 0 < s.cred_write_buffer.length
          · simp [step, h0]
          · simpa [step, h0] using h
  | authCmpl ok => simpa [step] using h
  | credTimeout =>
      by_cases h0 : 0 < s.cred_write_buffer.length
      · simp [step, cred_timeout_callback, h0]
      · simpa [step, cred_timeout_callback, h0] using h

/-- From startup, no sequence of events ever grows the reassembly buffer
past the 512-byte capacity. -/
theorem run_buffer_le (parse : Parse) (es : List BleEvent) :
    (run parse initSys es).1.cred_write_buffer.length ≤
      max_cred_buffer_size := by
  suffices hgen : ∀ (s : Sys),
      s.cred_write_buffer.length ≤ max_cred_buffer_size →
      (run parse s es).1.cred_write_buffer.length ≤ max_cred_buffer_size by
    exact hgen initSys (by simp [initSys, max_cred_buffer_size])
  induction es with
  | nil => intro s hs; simpa [run] using hs
  | cons e rest ih =>
      intro s hs
      simpa [run] using ih _ (step_buffer_le parse s e hs)

/-- C6 counterexample: after bonding fails, a fragment whose appending
would exceed the 512-byte capacity (2 buffered bytes plus a 511-byte
fragment) leaves the buffer unchanged at length 2 instead of resetting
it to empty as the claim requires for every such fragment. -/
theorem c6_counterexample :
    (run pnone initSys [BleEvent.connect 0, .authCmpl true,
        .write ⟨.wifiCredVal, false, false, 0, [123, 97]⟩,
        .authCmpl false,
        .write ⟨.wifiCredVal, false, false, 0,
          List.replicate 511 97⟩]).1.cred_write_buffer.length = 2 := by
  decide

/-- C6 amended: the reassembly buffer length never exceeds the 512-byte
capacity after any sequence of events from startup; and for every BONDED
non-prepared fragment whose appending would exceed capacity, the buffer
is reset to empty (the overflowing bytes are discarded, not truncated)
and the state machine transitions to the Error state with the
"Credentials too long" status. -/
theorem c6_amended_capacity (parse : Parse) (es : List BleEvent)
    (s : Sys) (w : WriteParam)
    (hb : s.is_bonded = true) (ht : w.target = .wifiCredVal)
    (hp : w.is_prep = false)
    (hov : max_cred_buffer_size <
      s.cred_write_buffer.length + w.value.length) :
    (run parse initSys es).1.cred_write_buffer.length ≤
      max_cred_buffer_size ∧
    (gatts_write_evt parse s w).1.cred_write_buffer = [] ∧
    stateSets (gatts_write_evt parse s w).2 =
      [(.error, .errorInvalidJson, "Credentials too long")] ∧
    (gatts_write_evt parse s w).1.prov_state = .error := by
  obtain ⟨t, prep, rsp, off, v⟩ := w
  cases ht; cases hp
  have hov2 : max_cred_buffer_size <
      s.cred_write_buffer.length + v.length := by simpa using hov
  have hfit : ¬(s.cred_write_buffer.length + v.length ≤
      max_cred_buffer_size) := by omega
  refine ⟨run_buffer_le parse es, ?_, ?_, ?_⟩ <;>
    cases hc : s.is_connected <;>
      simp [gatts_write_evt, provisioning_state_set, hb, hfit, hc,
        stateSets]

set_option maxRecDepth 4000 in
/-- Witness for C6 amended at a concrete overflowing 513-byte
fragment. -/
theorem c6_amended_witness :
    (run pnone initSys []).1.cred_write_buffer.length ≤
      max_cred_buffer_size ∧
    (gatts_write_evt pnone bondedSys
        ⟨.wifiCredVal, false, false, 0,
          List.replicate 513 97⟩).1.cred_write_buffer = [] ∧
    stateSets (gatts_write_evt pnone bondedSys
        ⟨.wifiCredVal, false, false, 0, List.replicate 513 97⟩).2 =
      [(.error, .errorInvalidJson, "Credentials too long")] ∧
    (gatts_write_evt pnone bondedSys
        ⟨.wifiCredVal, false, false, 0,
          List.replicate 513 97⟩).1.prov_state = .error :=
  c6_amended_capacity pnone [] bondedSys
    ⟨.wifiCredVal, false, false, 0, List.replicate 513 97⟩ rfl rfl rfl
    (by
      show max_cred_buffer_size < 0 + (List.replicate 513 97).length
      rw [List.length_replicate]
      decide)

/-! ## C2 -/

/-- A bonded write-without-response fragment event on the Credentials
characteristic. -/
def credFragEvent (f : List Byte) : BleEvent :=
  .write ⟨.wifiCredVal, false, false, 0, f⟩

/-- Filter computations used to take traces apart. -/
theorem parseCalls_append (a b : List Eff) :
    parseCalls (a ++ b) = parseCalls a ++ parseCalls b := by
  simp [parseCalls]

theorem wifiConnects_append (a b : List Eff) :
    wifiConnects (a ++ b) = wifiConnects a ++ wifiConnects b := by
  simp [wifiConnects]

theorem parseCalls_ack : parseCalls [Eff.sendResponse] = [] := rfl

theorem wifiConnects_ack : wifiConnects [Eff.sendResponse] = [] := rfl

theorem parseCalls_stop : parseCalls [Eff.timerStop] = [] := rfl

theorem wifiConnects_stop : wifiConnects [Eff.timerStop] = [] := rfl

theorem parseCalls_arm (u : Nat) :
    parseCalls [Eff.timerStop, Eff.timerStart u] = [] := rfl

theorem wifiConnects_arm (u : Nat) :
    wifiConnects [Eff.timerStop, Eff.timerStart u] = [] := rfl

theorem parseCalls_nil : parseCalls [] = [] := rfl

theorem wifiConnects_nil : wifiConnects [] = [] := rfl

theorem parseCalls_cons_ack (l : List Eff) :
    parseCalls (Eff.sendResponse :: l) = parseCalls l := rfl

theorem wifiConnects_cons_ack (l : List Eff) :
    wifiConnects (Eff.sendResponse :: l) = wifiConnects l := rfl

theorem parseCalls_cons_stop (l : List Eff) :
    parseCalls (Eff.timerStop :: l) = parseCalls l := rfl

theorem wifiConnects_cons_stop (l : List Eff) :
    wifiConnects (Eff.timerStop :: l) = wifiConnects l := rfl

theorem parseCalls_cons_start (u : Nat) (l : List Eff) :
    parseCalls (Eff.timerStart u :: l) = parseCalls l := rfl

theorem wifiConnects_cons_start (u : Nat) (l : List Eff) :
    wifiConnects (Eff.timerStart u :: l) = wifiConnects l := rfl

/-- The default-carrying last element of a non-empty list is one of its
elements. -/
theorem getLastD_mem (l : List Byte) (d : Byte) (h : l ≠ []) :
    l.getLastD d ∈ l := by
  rw [List.getLastD_eq_getLast?]
  rcases hl : l.getLast? with _ | a
  · cases l with
    | nil => exact absurd rfl h
    | cons x t => simp [List.getLast?_eq_getLast] at hl
  · simpa using List.mem_of_getLast?_eq_some hl

/-- A non-empty strict front part of `P` cannot end in a byte that does
not occur before the last position of `P`. -/
theorem front_getLastD_ne (P Q R : List Byte) (hQR : Q ++ R = P)
    (hQ : Q ≠ []) (hR : R ≠ []) (hnot : 125 ∉ P.dropLast) :
    Q.getLastD 0 ≠ 125 := by
  intro heq
  apply hnot
  rw [← hQR, List.dropLast_append_of_ne_nil Q hR]
  exact List.mem_append_left _ (heq ▸ getLastD_mem Q 0 hQ)

/-- A bonded, fitting, non-completing write-without-response fragment
appends to the buffer and re-arms the one-shot timer. -/
theorem gatts_write_evt_append (parse : Parse) (s : Sys) (rsp : Bool)
    (off : Nat) (v : List Byte)
    (hb : s.is_bonded = true)
    (hfit : s.cred_write_buffer.length + v.length ≤ max_cred_buffer_size)
    (hnc : (s.cred_write_buffer ++ v).getLastD 0 ≠ 125) :
    gatts_write_evt parse s ⟨.wifiCredVal, false, rsp, off, v⟩ =
      ({ s with cred_write_buffer := s.cred_write_buffer ++ v
              , timer_created := true
              , timer_armed := true },
       (if rsp then [Eff.sendResponse] else []) ++
         [.timerStop, .timerStart cred_timeout_us]) := by
  have hnc2 : (v.getLast?.or s.cred_write_buffer.getLast?).getD 0 ≠ 125 := by
    simpa [List.getLastD_eq_getLast?] using hnc
  cases rsp <;> simp [gatts_write_evt, hb, hfit, hnc2]

/-- A bonded, fitting, completing write-without-response fragment
invokes the parser exactly once on the whole buffered payload, hands the
parsed credentials (if any) to the WiFi connector, and resets the
buffer. -/
theorem gatts_write_evt_complete (parse : Parse) (s : Sys) (rsp : Bool)
    (off : Nat) (v : List Byte)
    (hb : s.is_bonded = true)
    (hfit : s.cred_write_buffer.length + v.length ≤ max_cred_buffer_size)
    (hne : s.cred_write_buffer ++ v ≠ [])
    (hlast : (s.cred_write_buffer ++ v).getLastD 0 = 125) :
    parseCalls
        (gatts_write_evt parse s ⟨.wifiCredVal, false, rsp, off, v⟩).2 =
      [s.cred_write_buffer ++ v] ∧
    wifiConnects
        (gatts_write_evt parse s ⟨.wifiCredVal, false, rsp, off, v⟩).2 =
      credsOf parse (s.cred_write_buffer ++ v) ∧
    (gatts_write_evt parse s
        ⟨.wifiCredVal, false, rsp, off, v⟩).1.cred_write_buffer = [] := by
  have hl : 0 < s.cred_write_buffer.length + v.length := by
    have := List.length_pos.mpr hne
    simpa [List.length_append] using this
  have h1 : 0 < s.cred_write_buffer.length ∨ 0 < v.length := by omega
  have h2 : (v.getLast?.or s.cred_write_buffer.getLast?).getD 0 = 125 := by
    simpa [List.getLastD_eq_getLast?] using hlast
  cases rsp <;> cases hc : s.timer_created <;>
    simp [gatts_write_evt, hb, hfit, h1, h2, hc, parseCalls_append,
      wifiConnects_append, parseCalls_handle, wifiConnects_handle,
      parseCalls_cons_ack, wifiConnects_cons_ack, parseCalls_cons_stop,
      wifiConnects_cons_stop, parseCalls_nil, wifiConnects_nil]

/-- Reassembly invariant: starting bonded with buffer content equal to a
strict front of `P` and feeding the remaining non-empty fragments whose
concatenation completes `P`, the run invokes the parser exactly once, on
`P`, hands over exactly the credentials of parsing `P` directly, and
leaves the buffer empty. -/
theorem c2_aux (parse : Parse) (P : List Byte)
    (hlast : P.getLastD 0 = 125) (hnot : 125 ∉ P.dropLast)
    (hlen : P.length ≤ max_cred_buffer_size) :
    ∀ (frags : List (List Byte)) (s : Sys),
      s.is_bonded = true →
      s.cred_write_buffer ++ frags.flatten = P →
      frags ≠ [] → (∀ f ∈ frags, f ≠ []) →
      parseCalls (run parse s (frags.map credFragEvent)).2 = [P] ∧
      wifiConnects (run parse s (frags.map credFragEvent)).2 =
        credsOf parse P ∧
      (run parse s (frags.map credFragEvent)).1.cred_write_buffer = [] := by
  intro frags
  induction frags with
  | nil => intro s _ _ hfr _; exact absurd rfl hfr
  | cons f rest ih =>
      intro s hb hacc hfr hne
      have hf : f ≠ [] := hne f (by simp)
      have hacc2 : (s.cred_write_buffer ++ f) ++ rest.flatten = P := by
        simpa [List.append_assoc] using hacc
      have hfit : s.cred_write_buffer.length + f.length ≤
          max_cred_buffer_size := by
        have : ((s.cred_write_buffer ++ f) ++ rest.flatten).length =
            P.length := by rw [hacc2]
        simp [List.length_append] at this
        omega
      cases rest with
      | nil =>
          have hbufP : s.cred_write_buffer ++ f = P := by
            simpa using hacc2
          have hPne : P ≠ [] := by
            intro hnil
            rw [hnil] at hlast
            simp [List.getLastD_nil] at hlast
          have hc := gatts_write_evt_complete parse s false 0 f hb hfit
            (hbufP ▸ hPne) (hbufP ▸ hlast)
          rw [hbufP] at hc
          simp only [List.map_cons, List.map_nil, run, credFragEvent,
            step, List.append_nil]
          exact hc
      | cons r rs =>
          have hrest : (r :: rs).flatten ≠ [] :=
            List.append_ne_nil_of_left_ne_nil (hne r (by simp)) _
          have hbufne : s.cred_write_buffer ++ f ≠ [] :=
            List.append_ne_nil_of_right_ne_nil _ hf
          have hnc : (s.cred_write_buffer ++ f).getLastD 0 ≠ 125 :=
            front_getLastD_ne P (s.cred_write_buffer ++ f)
              ((r :: rs).flatten) hacc2 hbufne hrest hnot
          have hstep := gatts_write_evt_append parse s false 0 f hb hfit hnc
          have hrec := ih
            { s with
                cred_write_buffer := s.cred_write_buffer ++ f,
                timer_created := true,
                timer_armed := true }
            (by simp [hb]) (by simpa using hacc2) (by simp)
            (fun g hg => hne g (by simp [hg]))
          have hstep2 : step parse s (credFragEvent f) =
              ({ s with
                    cred_write_buffer := s.cred_write_buffer ++ f,
                    timer_created := true,
                    timer_armed := true },
               [Eff.timerStop, Eff.timerStart cred_timeout_us]) := by
            simpa [credFragEvent, step] using hstep
          simp only [List.map_cons] at hrec
          rw [List.map_cons, run, hstep2]
          simp [parseCalls_append, wifiConnects_append,
            parseCalls_cons_stop, wifiConnects_cons_stop,
            parseCalls_cons_start, wifiConnects_cons_start,
            hrec.1, hrec.2.1, hrec.2.2]

/-- C2: for every payload `P` that is a single flat JSON object whose
only 0x7d byte is its last byte, split into non-empty fragments
delivered in order as bonded write-without-response writes with total
length within the 512-byte buffer, the fragments are appended in arrival
order, completion is detected exactly on the final fragment, the parser
is invoked exactly once on the byte-exact concatenation `P` (handing the
WiFi connector the same ssid/password pair as parsing `P` directly), and
the buffer length is 0 afterward. -/
theorem c2_fragmented_reassembly (parse : Parse) (P : List Byte)
    (frags : List (List Byte)) (s : Sys)
    (hb : s.is_bonded = true) (hbuf : s.cred_write_buffer = [])
    (hjoin : frags.flatten = P) (hfr : frags ≠ [])
    (hne : ∀ f ∈ frags, f ≠ [])
    (hlast : P.getLastD 0 = 125) (hnot : 125 ∉ P.dropLast)
    (hlen : P.length ≤ max_cred_buffer_size) :
    parseCalls (run parse s (frags.map credFragEvent)).2 = [P] ∧
    wifiConnects (run parse s (frags.map credFragEvent)).2 =
      credsOf parse P ∧
    (run parse s (frags.map credFragEvent)).1.cred_write_buffer = [] :=
  c2_aux parse P hlast hnot hlen frags s hb
    (by simp [hbuf, hjoin]) hfr hne

/-- Witness for C2: the payload 0x7b 0x7d delivered in two one-byte
fragments on a bonded connection. -/
theorem c2_witness :
    parseCalls (run pgood bondedSys
        ([[123], [125]].map credFragEvent)).2 = [[123, 125]] ∧
    wifiConnects (run pgood bondedSys
        ([[123], [125]].map credFragEvent)).2 =
      credsOf pgood [123, 125] ∧
    (run pgood bondedSys
        ([[123], [125]].map credFragEvent)).1.cred_write_buffer = [] :=
  c2_fragmented_reassembly pgood [123, 125] [[123], [125]] bondedSys
    rfl rfl (by decide) (by decide) (by decide) (by decide) (by decide)
    (by decide)

end BleProv
